import Mathlib

/-
Verification development for `update_journey_data.py` (Donostio/IMW).

The Python module fetches candidate journeys from the TFL journey planner,
filters them to Direct / One Change rail journeys, enriches each rail leg
with live data from the Darwin departure board, and writes the result to a
JSON file.  This file gives a shallow embedding of that module: the external
services (TFL response, Darwin boards) are inputs, clock times are minutes
since midnight wrapped in the string formats the code manipulates, and a
Python exception escaping a function is `Except.error ()`.
-/

set_option autoImplicit false

namespace IMW

/-! ## String primitives

The Python code uses `str.split`, `str.replace`, `str.strip` and integer
conversion.  These are re-implemented here by structural recursion over the
character list of the string, so that every concrete instance reduces inside
the kernel (core's `String.splitOn`/`String.replace` are defined by
well-founded recursion on positions and do not). -/

/-- `l.split(sep)` on the character list, for a one-character separator
(every separator the code uses — `':'`, `'-'`, `'T'`, `'*'`, `'('` — is one
character). -/
def splitChar (sep : Char) : List Char → List (List Char)
  | [] => [[]]
  | c :: cs =>
    if c = sep then [] :: splitChar sep cs
    else
      match splitChar sep cs with
      | [] => [[c]]
      | x :: xs => (c :: x) :: xs

/-- `s.split(sep)` for a one-character separator. -/
def splitOnChar (sep : Char) (s : String) : List String :=
  (splitChar sep s.data).map (fun l => ⟨l⟩)

/-- One step of `str.replace` over character lists, with enough fuel to
scan the whole list; replaces non-overlapping occurrences left to right
(the pattern is never empty where the code calls it). -/
def replaceChars (pat repl : List Char) : Nat → List Char → List Char
  | _, [] => []
  | 0, l => l
  | fuel + 1, c :: cs =>
    if pat.isPrefixOf (c :: cs) then
      repl ++ replaceChars pat repl fuel (List.drop (pat.length - 1) cs)
    else c :: replaceChars pat repl fuel cs

/-- `s.replace(pat, repl)`. -/
def replaceStr (s pat repl : String) : String :=
  ⟨replaceChars pat.data repl.data s.data.length s.data⟩

/-- `s.strip()` (the strings stripped here only carry ASCII whitespace). -/
def stripStr (s : String) : String :=
  ⟨((s.data.dropWhile Char.isWhitespace).reverse.dropWhile Char.isWhitespace).reverse⟩

/-! ## Time utilities

`datetime.strptime` with the formats `"%H:%M"` and `"%Y-%m-%dT%H:%M:%S"`,
and `strftime("%H:%M")`.  A time of day is represented as minutes since
midnight; a failed parse (Python `ValueError`) is `none`. -/

/-- A non-empty all-digit string, as matched by a `%H`/`%M`/`%S` field. -/
def isDigits (s : String) : Bool := !s.data.isEmpty && s.data.all Char.isDigit

/-- Numeric value of a digit string. -/
def digitsVal (s : String) : Nat :=
  s.data.foldl (fun n c => n * 10 + (c.toNat - 48)) 0

/-- Model of `datetime.strptime(s, "%H:%M").time()`: minutes since midnight,
`none` on a `ValueError`. `%H` and `%M` each match one or two digits, with
hour 0..23 and minute 0..59, and the whole string must be consumed. -/
def parseHHMM (s : String) : Option Nat :=
  match splitOnChar ':' s with
  | [h, m] =>
    if isDigits h && h.length ≤ 2 && isDigits m && m.length ≤ 2
        && digitsVal h ≤ 23 && digitsVal m ≤ 59 then
      some (digitsVal h * 60 + digitsVal m)
    else none
  | _ => none

/-- Two-digit zero padding used by `strftime`. -/
def pad2 (n : Nat) : String := if n < 10 then "0" ++ toString n else toString n

/-- Model of `strftime("%H:%M")` on a time of day. -/
def fmtHHMM (t : Nat) : String := pad2 (t / 60) ++ ":" ++ pad2 (t % 60)

/-- Model of `s.split('*')[0]`. -/
def stripStar (s : String) : String := (splitOnChar '*' s).headD s

/-- The `%Y-%m-%d` date part of the TFL timestamp grammar.  (Day-of-month
validity is checked at 1..31 granularity.) -/
def validDatePart (d : String) : Bool :=
  match splitOnChar '-' d with
  | [y, mo, da] =>
    isDigits y && y.length ≤ 4 && isDigits mo && mo.length ≤ 2
      && isDigits da && da.length ≤ 2
      && 1 ≤ digitsVal mo && digitsVal mo ≤ 12
      && 1 ≤ digitsVal da && digitsVal da ≤ 31
  | _ => false

/-- Model of `datetime.strptime(s, "%Y-%m-%dT%H:%M:%S")` keeping the
time-of-day (the code immediately re-formats with `strftime("%H:%M")`):
minutes since midnight, `none` on a `ValueError`. -/
def parseTFL (s : String) : Option Nat :=
  match splitOnChar 'T' s with
  | [d, t] =>
    if validDatePart d then
      match splitOnChar ':' t with
      | [h, m, sec] =>
        if isDigits h && h.length ≤ 2 && isDigits m && m.length ≤ 2
            && isDigits sec && sec.length ≤ 2
            && digitsVal h ≤ 23 && digitsVal m ≤ 59 && digitsVal sec ≤ 61 then
          some (digitsVal h * 60 + digitsVal m)
        else none
      | _ => none
    else none
  | _ => none

/-! ## Darwin live-data model (`get_darwin_live_data`) -/

/-- One entry of `service_details.subsequent_calling_points.calling_point`. -/
structure CallingPoint where
  crs : String
  /-- estimated time of arrival; `none` models a falsy `point.eta` -/
  eta : Option String
  /-- scheduled time of arrival -/
  sta : String
  /-- `point.platform.text`; `none` models a falsy `point.platform` -/
  platform : Option String
deriving Repr, DecidableEq

/-- One service of `board.train_services`, with the calling points that
`get_service_details(service.service_id)` returns for it.  `callingPoints =
none` models a falsy `service_details` or `subsequent_calling_points`. -/
structure TrainService where
  std : String
  /-- `service.platform.text`; `none` models a falsy `service.platform` -/
  platform : Option String
  callingPoints : Option (List CallingPoint)
deriving Repr, DecidableEq

/-- The dictionary returned by `get_darwin_live_data` on a match. -/
structure DarwinResult where
  liveArrival : String
  departurePlatform : String
  arrivalPlatform : String
deriving Repr, DecidableEq

/-- The ambient Darwin state: whether `DARWIN_SESSION` is non-`None`, and the
departure board `get_departures(departure_crs, destination_crs, rows=10)`
yields (`none` models a raised transport error, caught by the function's
outer `except`). -/
structure DarwinEnv where
  session : Bool
  board : String → String → Option (List TrainService)

/-- `point.eta.split('*')[0] if point.eta else point.sta`. -/
def pointLiveArrival (p : CallingPoint) : String :=
  match p.eta with
  | some e => stripStar e
  | none => p.sta

/-- The result dictionary built for a matched service: departure platform
from the board, and live arrival / arrival platform from the first calling
point whose CRS is the destination (`'Unknown'` / `'TBC'` when absent). -/
def buildResult (s : TrainService) (destination_crs : String) : DarwinResult :=
  let departure_platform := (s.platform).getD "TBC"
  match s.callingPoints with
  | some pts =>
    match pts.find? (fun p => p.crs == destination_crs) with
    | some p => ⟨pointLiveArrival p, departure_platform, (p.platform).getD "TBC"⟩
    | none => ⟨"Unknown", departure_platform, "TBC"⟩
  | none => ⟨"Unknown", departure_platform, "TBC"⟩

/-- The `for service in board.train_services` loop: skip services whose
star-stripped `std` does not parse as `HH:MM` (the `except ValueError:
continue`), return the built result for the first service whose parsed
`std` equals the given scheduled time, `none` when the loop ends. -/
def matchLoop (services : List TrainService) (t : Nat) (destination_crs : String) :
    Option DarwinResult :=
  match services with
  | [] => none
  | s :: rest =>
    match parseHHMM (stripStar s.std) with
    | none => matchLoop rest t destination_crs
    | some dt =>
      if dt = t then some (buildResult s destination_crs)
      else matchLoop rest t destination_crs

/-- `get_darwin_live_data(departure_crs, scheduled_dep_time, destination_crs)`.
Returns `none` when the session is absent, the board call raises, the
scheduled time fails to parse (caught by the outer `except`), or no service
matches. -/
def get_darwin_live_data (env : DarwinEnv)
    (departure_crs scheduled_dep_time destination_crs : String) :
    Option DarwinResult :=
  if env.session then
    match env.board departure_crs destination_crs with
    | none => none
    | some services =>
      match parseHHMM scheduled_dep_time with
      | none => none
      | some t => matchLoop services t destination_crs
  else none

/-! ## TFL journey model and classification -/

/-- One element of `journey['legs']`.  `duration` is only read for walking
legs; `summary` is `leg['instruction'].get('summary', ...)` and `status` is
`leg.get('status', ...)`, both optional in the upstream dictionaries. -/
structure TFLLeg where
  modeId : String
  depName : String
  arrName : String
  scheduledDepartureTime : String
  scheduledArrivalTime : String
  summary : Option String
  status : Option String
  duration : Nat
deriving Repr, DecidableEq

/-- One element of the TFL response's `journeys` list. -/
structure TFLJourney where
  startDateTime : String
  arrivalDateTime : String
  duration : Nat
  legs : List TFLLeg
deriving Repr, DecidableEq

/-- `l['mode']['id'] in ['overground', 'national-rail']`. -/
def isRailB (l : TFLLeg) : Bool :=
  l.modeId == "overground" || l.modeId == "national-rail"

/-- `is_valid_train_journey`: exactly one rail leg is `Direct`; exactly two
rail legs are `One Change` only when the journey has exactly three legs and
the middle one is a walking leg; everything else is rejected. -/
def is_valid_train_journey (legs : List TFLLeg) : Bool × String :=
  let rail_legs := legs.filter isRailB
  if rail_legs.length = 1 then (true, "Direct")
  else if rail_legs.length = 2 then
    match legs with
    | [_, mid, _] =>
      if mid.modeId == "walking" then (true, "One Change") else (false, "Not Rail")
    | _ => (false, "Not Rail")
  else (false, "Not Rail")

/-- The `CRS_MAP` dictionary (`dict.get`: `none` when the name is absent). -/
def CRS_MAP (name : String) : Option String :=
  if name == "Streatham Common Rail Station" then some "SRC"
  else if name == "Imperial Wharf Rail Station" then some "IMW"
  else if name == "Clapham Junction Rail Station" then some "CLJ"
  else none

/-! ## Per-leg processing inside `process_journey` -/

/-- The dictionary built for a rail leg.  The live fields start absent
(`none`), exactly like keys not yet added to the Python dict, and are filled
by the Darwin branch taken. -/
structure TrainLegRec where
  origin : String
  destination : String
  departure : String
  arrival : String
  op : String
  status : String
  live_arrival : Option String
  departurePlatform : Option String
  arrivalPlatform : Option String
  arrivalPlatform_ClaphamJunction : Option String
  departurePlatform_ClaphamJunction : Option String
deriving Repr, DecidableEq

/-- One element of the output `legs` list: a rail-leg record or a transfer
marker. -/
inductive LegRec where
  | train (rec : TrainLegRec)
  | transfer (location : String) (transferTime : String)
deriving Repr, DecidableEq

/-- `operator.split('(')[0].strip()`. -/
def cleanOperator (op : String) : String := stripStr ((splitOnChar '(' op).headD op)

/-- The rail-leg branch of the `for leg_idx, leg in enumerate(journey_legs)`
loop, up to (but not including) the overall arrival/duration update: builds
the leg dictionary and reports the Darwin data used (`none` when Darwin gave
nothing or a CRS code was missing).  `Except.error ()` models a
`ValueError` escaping from `strptime` on the leg's scheduled times. -/
def railLegData (env : DarwinEnv) (journey_type : String) (leg_idx : Nat)
    (leg : TFLLeg) : Except Unit (TrainLegRec × Option DarwinResult) :=
  match parseTFL leg.scheduledDepartureTime, parseTFL leg.scheduledArrivalTime with
  | some depT, some arrT =>
    let scheduled_dep := fmtHHMM depT
    let scheduled_arr := fmtHHMM arrT
    let base : TrainLegRec :=
      { origin := replaceStr leg.depName " Rail Station" ""
        destination := replaceStr leg.arrName " Rail Station" ""
        departure := scheduled_dep
        arrival := scheduled_arr
        op := cleanOperator ((leg.summary).getD "Rail Operator")
        status := (leg.status).getD "On Time"
        live_arrival := none
        departurePlatform := none
        arrivalPlatform := none
        arrivalPlatform_ClaphamJunction := none
        departurePlatform_ClaphamJunction := none }
    match CRS_MAP leg.depName, CRS_MAP leg.arrName with
    | some origin_crs, some destination_crs =>
      match get_darwin_live_data env origin_crs scheduled_dep destination_crs with
      | some dd =>
        let withLive := { base with
          live_arrival := some dd.liveArrival
          departurePlatform := some dd.departurePlatform
          arrivalPlatform := some dd.arrivalPlatform }
        let withCLJ :=
          if journey_type == "One Change" && leg_idx == 0 then
            { withLive with arrivalPlatform_ClaphamJunction := some dd.arrivalPlatform }
          else if journey_type == "One Change" && leg_idx == 2 then
            { withLive with departurePlatform_ClaphamJunction := some dd.departurePlatform }
          else withLive
        Except.ok (withCLJ, some dd)
      | none =>
        Except.ok ({ base with
          live_arrival := some scheduled_arr
          departurePlatform := some "TBC"
          arrivalPlatform := some "TBC" }, none)
    | _, _ =>
      Except.ok ({ base with
        live_arrival := some scheduled_arr
        departurePlatform := some "TBC"
        arrivalPlatform := some "TBC" }, none)
  | _, _ => Except.error ()

/-- The `try`/`except ValueError` that recomputes `total_duration` from the
journey start time and the live arrival, adding a day when the arrival clock
time is before the departure clock time; the previous duration is kept when
either string fails to parse. -/
def recomputeDuration (journey_start_time live_arrival old_duration : String) :
    String :=
  match parseHHMM journey_start_time, parseHHMM live_arrival with
  | some dep, some arr =>
    let arrAdj := if arr < dep then arr + 1440 else arr
    toString (arrAdj - dep) ++ " min"
  | _, _ => old_duration

/-- Mutable state threaded through the leg loop of `process_journey`. -/
structure LoopState where
  legsAcc : List LegRec
  overall_arrival_time : String
  total_duration : String
deriving Repr, DecidableEq

/-- One iteration of the leg loop.  `lastTrainLeg` is `train_legs[-1]`
(compared structurally, as Python `==` compares the dictionaries); non-rail
non-walking legs are skipped. -/
def legStep (env : DarwinEnv) (journey_type journey_start_time : String)
    (lastTrainLeg : Option TFLLeg) (st : LoopState) (ixleg : Nat × TFLLeg) :
    Except Unit LoopState :=
  let leg := ixleg.2
  if isRailB leg then
    match railLegData env journey_type ixleg.1 leg with
    | Except.error e => Except.error e
    | Except.ok (rec, odd) =>
      match odd with
      | some dd =>
        if some leg = lastTrainLeg then
          Except.ok
            { legsAcc := st.legsAcc ++ [LegRec.train rec]
              overall_arrival_time := dd.liveArrival
              total_duration :=
                recomputeDuration journey_start_time dd.liveArrival st.total_duration }
        else Except.ok { st with legsAcc := st.legsAcc ++ [LegRec.train rec] }
      | none => Except.ok { st with legsAcc := st.legsAcc ++ [LegRec.train rec] }
  else if leg.modeId == "walking" then
    Except.ok { st with legsAcc := st.legsAcc ++
      [LegRec.transfer (replaceStr leg.depName " Rail Station" "")
        (toString leg.duration ++ " min")] }
  else Except.ok st

/-- The whole leg loop. -/
def processLegs (env : DarwinEnv) (journey_type journey_start_time : String)
    (lastTrainLeg : Option TFLLeg) :
    List (Nat × TFLLeg) → LoopState → Except Unit LoopState
  | [], st => Except.ok st
  | x :: rest, st =>
    match legStep env journey_type journey_start_time lastTrainLeg st x with
    | Except.error e => Except.error e
    | Except.ok st2 => processLegs env journey_type journey_start_time lastTrainLeg rest st2

/-- The dictionary returned by `process_journey`.  The wall-clock
`live_updated_at` field is omitted (it reads the ambient clock and no
property here concerns it). -/
structure JourneyRec where
  id : Nat
  jtype : String
  departureTime : String
  arrivalTime : String
  totalDuration : String
  status : String
  legs : List LegRec
deriving Repr, DecidableEq

/-- `process_journey(journey, journey_id)`: `ok none` is the `return None`
for invalid journeys, `error ()` a `ValueError` escaping to the caller. -/
def process_journey (env : DarwinEnv) (journey : TFLJourney) (journey_id : Nat) :
    Except Unit (Option JourneyRec) :=
  let v := is_valid_train_journey journey.legs
  if v.1 then
    match parseTFL journey.startDateTime, parseTFL journey.arrivalDateTime with
    | some stT, some etT =>
      let journey_start_time := fmtHHMM stT
      let journey_end_time := fmtHHMM etT
      let total_duration := toString journey.duration ++ " min"
      -- `journey_legs[0]` exists because a valid journey has a rail leg
      let status := ((journey.legs.head?).map (fun l => (l.status).getD "On Time")).getD "On Time"
      let train_legs := journey.legs.filter isRailB
      match processLegs env v.2 journey_start_time train_legs.getLast?
          journey.legs.enum ⟨[], journey_end_time, total_duration⟩ with
      | Except.error e => Except.error e
      | Except.ok st =>
        Except.ok (some
          { id := journey_id
            jtype := v.2
            departureTime := journey_start_time
            arrivalTime := st.overall_arrival_time
            totalDuration := st.total_duration
            status := status
            legs := st.legsAcc })
    | _, _ => Except.error ()
  else Except.ok none

/-! ## Selection loop, `fetch_and_process_tfl_data` and `main` -/

/-- `NUM_JOURNEYS = 4`. -/
def NUM_JOURNEYS : Nat := 4

/-- The `for idx, journey in enumerate(journeys, 1)` loop: a journey that
raises is skipped (`except ... continue`), a valid processed journey is
appended with id `len(processed) + 1`, and the loop breaks once
`len(processed) >= num_journeys`. -/
def fetchLoop (env : DarwinEnv) (num : Nat) :
    List TFLJourney → List JourneyRec → List JourneyRec
  | [], processed => processed
  | j :: rest, processed =>
    match process_journey env j (processed.length + 1) with
    | Except.ok (some r) =>
      let processed2 := processed ++ [r]
      if num ≤ processed2.length then processed2
      else fetchLoop env num rest processed2
    | Except.ok none => fetchLoop env num rest processed
    | Except.error _ => fetchLoop env num rest processed

/-- `fetch_and_process_tfl_data`: `resp = none` models a failed TFL call or
a response without a `journeys` key, which returns `[]`. -/
def fetch_and_process_tfl_data (env : DarwinEnv) (resp : Option (List TFLJourney))
    (num : Nat) : List JourneyRec :=
  match resp with
  | none => []
  | some journeys => fetchLoop env num journeys []

/-- `main()`: the output file is written only when the processed list is
truthy; `none` models the skipped write (the `else` warning branch). -/
def mainResult (env : DarwinEnv) (resp : Option (List TFLJourney)) :
    Option (List JourneyRec) :=
  let data := fetch_and_process_tfl_data env resp NUM_JOURNEYS
  if data.isEmpty then none else some data

/-- The module-level Darwin session setup: a session exists exactly when the
API key is a truthy (non-empty) string; a missing key only prints a warning
and the module continues. -/
def initDarwinSession (api_key : String) : Bool := !(api_key == "")

/-- `get_journey_plan` adds the TFL credentials to the request parameters
only when both are truthy; the request is made either way. -/
def tflAuthParams (app_id app_key : String) : List (String × String) :=
  if app_id != "" && app_key != "" then [("app_id", app_id), ("app_key", app_key)]
  else []

/-- The whole run, from credential handling to the write decision. -/
def runPipeline (darwin_key : String)
    (boards : String → String → Option (List TrainService))
    (resp : Option (List TFLJourney)) : Option (List JourneyRec) :=
  mainResult ⟨initDarwinSession darwin_key, boards⟩ resp

/-- The records produced by the selection loop without the result cap: every
journey that processes to a record, in source order, with ids counted from
`k`.  `fetchLoop` is proved equal to the `NUM_JOURNEYS`-prefix of this
list. -/
def validRecords (env : DarwinEnv) : List TFLJourney → Nat → List JourneyRec
  | [], _ => []
  | j :: rest, k =>
    match process_journey env j (k + 1) with
    | Except.ok (some r) => r :: validRecords env rest (k + 1)
    | Except.ok none => validRecords env rest k
    | Except.error _ => validRecords env rest k

/-! ## Concrete fixtures used by examples, witnesses and counterexamples -/

/-- A direct SRC → IMW rail leg scheduled 07:25 → 07:40. -/
def exLeg : TFLLeg :=
  ⟨"overground", "Streatham Common Rail Station", "Imperial Wharf Rail Station",
   "2026-10-12T07:25:00", "2026-10-12T07:40:00", some "Southern", none, 0⟩

/-- A direct journey consisting of `exLeg` alone. -/
def exJourney : TFLJourney :=
  ⟨"2026-10-12T07:25:00", "2026-10-12T07:40:00", 15, [exLeg]⟩

/-- A non-rail (bus) leg; a journey made of it alone is not a valid
candidate. -/
def busLeg : TFLLeg :=
  ⟨"bus", "Streatham Common Rail Station", "Imperial Wharf Rail Station",
   "2026-10-12T07:25:00", "2026-10-12T07:40:00", none, none, 0⟩

/-- A journey with no rail leg at all. -/
def busJourney : TFLJourney :=
  ⟨"2026-10-12T07:25:00", "2026-10-12T07:40:00", 15, [busLeg]⟩

/-- The environment of a run without a Darwin session (missing key). -/
def noDarwin : DarwinEnv := ⟨false, fun _ _ => none⟩

/-- A board service scheduled 07:25, platform 4, calling at IMW with
estimated arrival 07:46 against a scheduled arrival 07:40. -/
def exSvcDelayed : TrainService :=
  ⟨"07:25", some "4", some [⟨"IMW", some "07:46", "07:40", some "2"⟩]⟩

/-- Environment whose boards all report `exSvcDelayed`. -/
def envDelayed : DarwinEnv := ⟨true, fun _ _ => some [exSvcDelayed]⟩

/-- A board whose only service is scheduled 07:26 — one minute away from the
07:25 leg. -/
def envOffByOne : DarwinEnv :=
  ⟨true, fun _ _ => some [⟨"07:26", some "4", some [⟨"IMW", none, "07:41", none⟩]⟩]⟩

/-- A matched service whose calling points do not include the destination
CRS. -/
def exSvcNoDest : TrainService :=
  ⟨"07:25", some "4", some [⟨"CLJ", some "07:35", "07:33", some "9"⟩]⟩

/-- Environment whose boards all report `exSvcNoDest`. -/
def envNoDest : DarwinEnv := ⟨true, fun _ _ => some [exSvcNoDest]⟩

/-- First rail leg of a one-change journey, SRC → CLJ, departing 07:00. -/
def exLegA : TFLLeg :=
  ⟨"overground", "Streatham Common Rail Station", "Clapham Junction Rail Station",
   "2026-10-13T07:00:00", "2026-10-13T07:10:00", some "Southern", none, 0⟩

/-- The walking transfer at Clapham Junction. -/
def exWalk : TFLLeg :=
  ⟨"walking", "Clapham Junction Rail Station", "Clapham Junction Rail Station",
   "2026-10-13T07:10:00", "2026-10-13T07:15:00", none, none, 5⟩

/-- Second rail leg, CLJ → IMW. -/
def exLegB : TFLLeg :=
  ⟨"overground", "Clapham Junction Rail Station", "Imperial Wharf Rail Station",
   "2026-10-13T07:15:00", "2026-10-13T07:25:00", some "London Overground", none, 0⟩

/-- A one-change journey departing 07:00 on Monday 2026-10-13 (a weekday),
below both of the cutoffs the spec describes. -/
def exOneChange : TFLJourney :=
  ⟨"2026-10-13T07:00:00", "2026-10-13T07:25:00", 25, [exLegA, exWalk, exLegB]⟩

/-- The record `process_journey` produces for `exJourney` when no live data
is available: all live fields fall back to the scheduled baseline. -/
def exRecScheduled : JourneyRec :=
  { id := 1
    jtype := "Direct"
    departureTime := "07:25"
    arrivalTime := "07:40"
    totalDuration := "15 min"
    status := "On Time"
    legs := [LegRec.train
      { origin := "Streatham Common"
        destination := "Imperial Wharf"
        departure := "07:25"
        arrival := "07:40"
        op := "Southern"
        status := "On Time"
        live_arrival := some "07:40"
        departurePlatform := some "TBC"
        arrivalPlatform := some "TBC"
        arrivalPlatform_ClaphamJunction := none
        departurePlatform_ClaphamJunction := none }] }

/-- The rail-leg record `exLeg` turns into when no live data is available. -/
def exLegRecScheduled : TrainLegRec :=
  { origin := "Streatham Common"
    destination := "Imperial Wharf"
    departure := "07:25"
    arrival := "07:40"
    op := "Southern"
    status := "On Time"
    live_arrival := some "07:40"
    departurePlatform := some "TBC"
    arrivalPlatform := some "TBC"
    arrivalPlatform_ClaphamJunction := none
    departurePlatform_ClaphamJunction := none }

/-! ## Claim C1 — live-data matching -/

/-- The service loop returns the first service, in feed order, whose
star-stripped `std` parses to exactly the scheduled time. -/
theorem matchLoop_eq_find (services : List TrainService) (t : Nat) (dest : String) :
    matchLoop services t dest =
      (services.find? (fun s => parseHHMM (stripStar s.std) == some t)).map
        (fun s => buildResult s dest) := by
  induction services with
  | nil => rfl
  | cons s rest ih =>
    cases h : parseHHMM (stripStar s.std) with
    | none =>
      have hneg : ¬ ((fun q : TrainService => parseHHMM (stripStar q.std) == some t) s) = true := by
        simp [h]
      rw [@List.find?_cons_of_neg _ (fun q => parseHHMM (stripStar q.std) == some t) s rest hneg]
      simp only [matchLoop, h]
      exact ih
    | some dt =>
      by_cases hdt : dt = t
      · have hpos : ((fun q : TrainService => parseHHMM (stripStar q.std) == some t) s) = true := by
          simp [h, hdt]
        rw [@List.find?_cons_of_pos _ (fun q => parseHHMM (stripStar q.std) == some t) s rest hpos]
        simp only [matchLoop, h]
        rw [if_pos hdt]
        rfl
      · have hneg : ¬ ((fun q : TrainService => parseHHMM (stripStar q.std) == some t) s) = true := by
          simp [h, hdt]
        rw [@List.find?_cons_of_neg _ (fun q => parseHHMM (stripStar q.std) == some t) s rest hneg]
        simp only [matchLoop, h]
        rw [if_neg hdt]
        exact ih

/-- C1 (counterexample): the claim asserts a tolerance window of 120
seconds, so that a live record aimed one minute away from the scheduled
departure still matches; but `get_darwin_live_data` with a 07:25 leg and a
board whose only service is scheduled 07:26 finds no match at all. -/
theorem one_minute_away_record_is_not_matched :
    get_darwin_live_data envOffByOne "SRC" "07:25" "IMW" = none := by rfl

/-- C1 (amended): a live record is a candidate match if and only if its
star-stripped scheduled time parses as `HH:MM` and equals the leg's
scheduled departure time exactly (zero tolerance, not 120 seconds), and the
first such record in feed order is the one matched. -/
theorem live_match_requires_exact_std_equality (env : DarwinEnv)
    (dep sch dst : String) (services : List TrainService) (t : Nat)
    (hs : env.session = true) (hb : env.board dep dst = some services)
    (ht : parseHHMM sch = some t) :
    get_darwin_live_data env dep sch dst =
      (services.find? (fun s => parseHHMM (stripStar s.std) == some t)).map
        (fun s => buildResult s dst) := by
  simp [get_darwin_live_data, hs, hb, ht, matchLoop_eq_find]

/-- Witness for `live_match_requires_exact_std_equality` at a concrete
board: the 07:25 service is matched for a 07:25 leg. -/
theorem live_match_requires_exact_std_equality_witness :
    get_darwin_live_data envDelayed "SRC" "07:25" "IMW" =
      (([exSvcDelayed].find? (fun s => parseHHMM (stripStar s.std) == some 445)).map
        (fun s => buildResult s "IMW")) :=
  live_match_requires_exact_std_equality envDelayed "SRC" "07:25" "IMW"
    [exSvcDelayed] 445 rfl rfl rfl

/-! ## Claim C3 — journey selection -/

/-- C3 (counterexample): on a weekday run (the journeys are dated Monday
2026-10-13) the claim keeps only One-Change journeys departing at or after
07:25 and stops after two; the code keeps all three One-Change journeys
departing 07:00 — there is no day-of-week branch, no cutoff and no cap
below `NUM_JOURNEYS` anywhere in the selection. -/
theorem selection_ignores_day_type_and_cutoff :
    (fetch_and_process_tfl_data noDarwin
        (some [exOneChange, exOneChange, exOneChange]) NUM_JOURNEYS).map
      (fun r => (r.jtype, r.departureTime)) =
      [("One Change", "07:00"), ("One Change", "07:00"), ("One Change", "07:00")] := by
  rfl

/-- The selection loop is the `num`-prefix of the uncapped list of valid
processed journeys. -/
theorem fetchLoop_eq_take_validRecords (env : DarwinEnv) (num : Nat) :
    ∀ (js : List TFLJourney) (acc : List JourneyRec), acc.length < num →
      fetchLoop env num js acc =
        acc ++ (validRecords env js acc.length).take (num - acc.length) := by
  intro js
  induction js with
  | nil => intro acc _; simp [fetchLoop, validRecords]
  | cons j rest ih =>
    intro acc hlt
    simp only [fetchLoop, validRecords]
    cases hp : process_journey env j (acc.length + 1) with
    | error e => simp [ih acc hlt]
    | ok o =>
      cases o with
      | none => simp [ih acc hlt]
      | some r =>
        simp only [hp]
        have hlen : (acc ++ [r]).length = acc.length + 1 := by simp
        have hsub : num - acc.length = (num - (acc.length + 1)) + 1 := by omega
        rw [hsub, List.take_succ_cons]
        by_cases hn : num ≤ (acc ++ [r]).length
        · have h0 : num - (acc.length + 1) = 0 := by rw [hlen] at hn; omega
          rw [if_pos hn, h0, List.take_zero]
        · rw [if_neg hn]
          have hlt2 : (acc ++ [r]).length < num := by omega
          rw [ih (acc ++ [r]) hlt2, hlen]
          simp

/-- C3 (amended): selection is independent of the day of week: the code
keeps the valid journeys (Direct and One-Change alike) in schedule-source
order with no departure-time cutoff, truncating after `NUM_JOURNEYS = 4`. -/
theorem selection_keeps_first_four_valid (env : DarwinEnv) (js : List TFLJourney) :
    fetch_and_process_tfl_data env (some js) NUM_JOURNEYS =
      (validRecords env js 0).take NUM_JOURNEYS := by
  have h := fetchLoop_eq_take_validRecords env NUM_JOURNEYS js [] (by simp [NUM_JOURNEYS])
  simpa [fetch_and_process_tfl_data, NUM_JOURNEYS] using h

/-! ## Claim C7 — zero routes / live failure -/

/-- C7 (counterexample): the claim says a total absence of routes still
writes the output document with an empty journeys list; `main` only writes
when the processed list is truthy, so the write is skipped (`none`). -/
theorem zero_routes_skips_output_write :
    mainResult noDarwin (some []) = none := by rfl

/-- C7 (amended): a run with zero usable routes or a failed live board
still completes without a fatal error, but with zero routes the output
write is skipped rather than producing an empty document; the file is
written exactly when at least one journey was assembled, and a failed live
board with a usable route still yields a (degraded) written document. -/
theorem empty_run_completes_but_skips_write (env : DarwinEnv) :
    fetch_and_process_tfl_data env (some []) NUM_JOURNEYS = []
    ∧ mainResult env (some []) = none
    ∧ mainResult env none = none
    ∧ (∀ resp, (mainResult env resp).isSome ↔
        fetch_and_process_tfl_data env resp NUM_JOURNEYS ≠ [])
    ∧ mainResult ⟨true, fun _ _ => none⟩ (some [exJourney]) = some [exRecScheduled] := by
  refine ⟨rfl, rfl, rfl, ?_, by rfl⟩
  intro resp
  simp only [mainResult]
  by_cases h : (fetch_and_process_tfl_data env resp NUM_JOURNEYS).isEmpty
  · simp [h, List.isEmpty_iff.mp h]
  · simp [h, List.isEmpty_iff, h]
    intro hc
    exact h (by simp [hc])

/-- Witness for `empty_run_completes_but_skips_write`: at the no-Darwin
environment the equations hold and the write-iff gives a concrete written
run. -/
theorem empty_run_completes_but_skips_write_witness :
    mainResult noDarwin (some []) = none
    ∧ (mainResult noDarwin (some [exJourney])).isSome :=
  ⟨(empty_run_completes_but_skips_write noDarwin).2.1,
   ((empty_run_completes_but_skips_write noDarwin).2.2.2.1 (some [exJourney])).mpr
     (by decide)⟩

/-! ## Claim C8 — missing credentials -/

/-- C8 (counterexample): the claim says a missing credential aborts the run
before any network call with a non-zero exit; with every credential absent
the run instead proceeds and produces a normal (silently degraded) output
document from the schedule data. -/
theorem missing_credentials_run_proceeds :
    runPipeline "" (fun _ _ => some [exSvcDelayed]) (some [exJourney]) =
      some [exRecScheduled] := by rfl

/-- C8 (amended): credential absence is non-fatal: a missing Darwin key
only disables the live session, after which every live lookup yields
`none` and the run continues on scheduled data; missing TFL credentials
merely drop the auth parameters from the request. -/
theorem missing_credentials_degrade_gracefully
    (boards : String → String → Option (List TrainService))
    (resp : Option (List TFLJourney)) (dep sch dst : String) :
    initDarwinSession "" = false
    ∧ runPipeline "" boards resp = mainResult ⟨false, boards⟩ resp
    ∧ get_darwin_live_data ⟨false, boards⟩ dep sch dst = none
    ∧ tflAuthParams "" "" = [] :=
  ⟨rfl, rfl, rfl, rfl⟩

/-! ## Claim C10 — destination missing from calling points -/

/-- C10 (counterexample): the claim says both platforms of the leg become
`'TBC'` when the destination is missing from the matched service's calling
points; the departure platform actually comes from the board (here `'4'`),
only the arrival platform defaults to `'TBC'`. -/
theorem matched_service_platform_not_tbc :
    process_journey envNoDest exJourney 1 = Except.ok (some
      { id := 1
        jtype := "Direct"
        departureTime := "07:25"
        arrivalTime := "Unknown"
        totalDuration := "15 min"
        status := "On Time"
        legs := [LegRec.train
          { origin := "Streatham Common"
            destination := "Imperial Wharf"
            departure := "07:25"
            arrival := "07:40"
            op := "Southern"
            status := "On Time"
            live_arrival := some "Unknown"
            departurePlatform := some "4"
            arrivalPlatform := some "TBC"
            arrivalPlatform_ClaphamJunction := none
            departurePlatform_ClaphamJunction := none }] })
    ∧ ("4" : String) ≠ "TBC" := ⟨by rfl, by decide⟩

/-- C10 (amended): when the destination is not found among the matched
service's calling points the live arrival is the literal `'Unknown'` and
the arrival platform `'TBC'`, while the departure platform keeps the
board-reported value (defaulting to `'TBC'` only when the board has none);
`'Unknown'` fails the `HH:MM` parse, so on a final rail leg the journey's
arrival time becomes `'Unknown'` and the total duration silently keeps the
scheduled value. -/
theorem missing_destination_point_yields_unknown
    (s : TrainService) (dest : String) (pts : List CallingPoint)
    (h1 : s.callingPoints = some pts)
    (h2 : pts.find? (fun p => p.crs == dest) = none) :
    buildResult s dest = ⟨"Unknown", (s.platform).getD "TBC", "TBC"⟩
    ∧ parseHHMM "Unknown" = none
    ∧ (∀ start old, recomputeDuration start "Unknown" old = old)
    ∧ (∃ rec, process_journey envNoDest exJourney 1 = Except.ok (some rec)
        ∧ rec.arrivalTime = "Unknown"
        ∧ rec.totalDuration = toString exJourney.duration ++ " min") := by
  refine ⟨?_, rfl, ?_, ?_⟩
  · simp [buildResult, h1, h2]
  · intro start old
    have hu : parseHHMM "Unknown" = none := rfl
    unfold recomputeDuration
    rw [hu]
    cases hs : parseHHMM start
    · rfl
    · rfl
  · exact ⟨_, by rfl, by rfl, by rfl⟩

/-- Witness for `missing_destination_point_yields_unknown` at the concrete
service whose calling points miss IMW. -/
theorem missing_destination_point_yields_unknown_witness :
    buildResult exSvcNoDest "IMW" = ⟨"Unknown", "4", "TBC"⟩
    ∧ parseHHMM "Unknown" = none :=
  ⟨(missing_destination_point_yields_unknown exSvcNoDest "IMW"
      [⟨"CLJ", some "07:35", "07:33", some "9"⟩] rfl rfl).1,
   (missing_destination_point_yields_unknown exSvcNoDest "IMW"
      [⟨"CLJ", some "07:35", "07:33", some "9"⟩] rfl rfl).2.1⟩

/-! ## Shared facts about `is_valid_train_journey` and `process_journey` -/

/-- The classifier returns one of exactly three values. -/
theorem is_valid_cases (legs : List TFLLeg) :
    is_valid_train_journey legs = (true, "Direct")
    ∨ is_valid_train_journey legs = (true, "One Change")
    ∨ is_valid_train_journey legs = (false, "Not Rail") := by
  simp only [is_valid_train_journey]
  split_ifs with h1 h2
  · exact Or.inl rfl
  · split
    · split
      · exact Or.inr (Or.inl rfl)
      · exact Or.inr (Or.inr rfl)
    · exact Or.inr (Or.inr rfl)
  · exact Or.inr (Or.inr rfl)

/-- A journey processed to a record got the id it was called with and the
classifier's journey type, and was classified valid. -/
theorem process_journey_ok_inv (env : DarwinEnv) (j : TFLJourney) (n : Nat)
    (r : JourneyRec) (h : process_journey env j n = Except.ok (some r)) :
    r.id = n ∧ r.jtype = (is_valid_train_journey j.legs).2
      ∧ (is_valid_train_journey j.legs).1 = true := by
  simp only [process_journey] at h
  split at h
  case isTrue hv =>
    split at h
    case h_1 stT etT hst het =>
      split at h
      case h_1 e hpl => exact absurd h (by simp)
      case h_2 st hpl =>
        simp only [Except.ok.injEq, Option.some.injEq] at h
        subst h
        exact ⟨rfl, rfl, hv⟩
    case h_2 => exact absurd h (by simp)
  case isFalse hv => exact absurd h (by simp)

/-- Every record the selection loop emits comes from `process_journey`. -/
theorem mem_fetchLoop (env : DarwinEnv) (num : Nat) :
    ∀ (js : List TFLJourney) (acc : List JourneyRec) (r : JourneyRec),
      r ∈ fetchLoop env num js acc →
      r ∈ acc ∨ ∃ j n, process_journey env j n = Except.ok (some r) := by
  intro js
  induction js with
  | nil => intro acc r h; exact Or.inl h
  | cons j rest ih =>
    intro acc r h
    simp only [fetchLoop] at h
    cases hp : process_journey env j (acc.length + 1) with
    | error e => simp only [hp] at h; exact ih acc r h
    | ok o =>
      cases o with
      | none => simp only [hp] at h; exact ih acc r h
      | some r2 =>
        simp only [hp] at h
        by_cases hn : num ≤ (acc ++ [r2]).length
        · rw [if_pos hn] at h
          rcases List.mem_append.mp h with h1 | h1
          · exact Or.inl h1
          · refine Or.inr ⟨j, acc.length + 1, ?_⟩
            rw [List.mem_singleton.mp h1]
            exact hp
        · rw [if_neg hn] at h
          rcases ih (acc ++ [r2]) r h with h1 | h1
          · rcases List.mem_append.mp h1 with h2 | h2
            · exact Or.inl h2
            · refine Or.inr ⟨j, acc.length + 1, ?_⟩
              rw [List.mem_singleton.mp h2]
              exact hp
          · exact Or.inr h1

/-! ## Claim C2 — status derivation for matched records -/

/-- C2 (counterexample): the claim derives a `Delayed` status when the
expected time differs from the scheduled one; the code matches the 07:25
service whose IMW calling point has estimated arrival 07:46 against
scheduled 07:40, takes 07:46 as the live time, and still leaves every
status field at the scheduled default `'On Time'` — no status is ever
derived from the live record (there is not even a cancellation check). -/
theorem matched_delayed_record_keeps_scheduled_status :
    process_journey envDelayed exJourney 1 = Except.ok (some
      { id := 1
        jtype := "Direct"
        departureTime := "07:25"
        arrivalTime := "07:46"
        totalDuration := "21 min"
        status := "On Time"
        legs := [LegRec.train
          { origin := "Streatham Common"
            destination := "Imperial Wharf"
            departure := "07:25"
            arrival := "07:40"
            op := "Southern"
            status := "On Time"
            live_arrival := some "07:46"
            departurePlatform := some "4"
            arrivalPlatform := some "2"
            arrivalPlatform_ClaphamJunction := none
            departurePlatform_ClaphamJunction := none }] })
    ∧ ("On Time" : String) ≠ "Delayed" := ⟨by rfl, by decide⟩

/-- C2 (amended): for a matched live record the live arrival time is the
star-stripped estimated time of the destination calling point when one
exists, and its scheduled time otherwise; no status is derived from the
live record — the leg's status field always keeps the schedule source's
value (default `'On Time'`), whatever live data was matched. -/
theorem matched_record_live_time_and_status :
    (∀ (s : TrainService) (dest : String) (pts : List CallingPoint)
        (p : CallingPoint) (e : String),
      s.callingPoints = some pts → pts.find? (fun q => q.crs == dest) = some p →
      p.eta = some e → (buildResult s dest).liveArrival = stripStar e)
    ∧ (∀ (s : TrainService) (dest : String) (pts : List CallingPoint)
        (p : CallingPoint),
      s.callingPoints = some pts → pts.find? (fun q => q.crs == dest) = some p →
      p.eta = none → (buildResult s dest).liveArrival = p.sta)
    ∧ (∀ (env : DarwinEnv) (jt : String) (idx : Nat) (leg : TFLLeg)
        (rec : TrainLegRec) (odd : Option DarwinResult),
      railLegData env jt idx leg = Except.ok (rec, odd) →
      rec.status = (leg.status).getD "On Time") := by
  refine ⟨?_, ?_, ?_⟩
  · intro s dest pts p e h1 h2 he
    simp [buildResult, h1, h2, pointLiveArrival, he]
  · intro s dest pts p h1 h2 he
    simp [buildResult, h1, h2, pointLiveArrival, he]
  · intro env jt idx leg rec odd h
    simp only [railLegData] at h
    repeat split at h
    all_goals
      first
        | (injection h with h2
           simp only [Prod.mk.injEq] at h2
           obtain ⟨h3, h4⟩ := h2
           subst h3
           first
             | rfl
             | (split <;> rfl))
        | injection h

/-- Witness for `matched_record_live_time_and_status` at the delayed
service and the scheduled-only leg processing. -/
theorem matched_record_live_time_and_status_witness :
    (buildResult exSvcDelayed "IMW").liveArrival = stripStar "07:46"
    ∧ exLegRecScheduled.status = (exLeg.status).getD "On Time" :=
  ⟨matched_record_live_time_and_status.1 exSvcDelayed "IMW"
      [⟨"IMW", some "07:46", "07:40", some "2"⟩]
      ⟨"IMW", some "07:46", "07:40", some "2"⟩ "07:46" rfl rfl rfl,
   matched_record_live_time_and_status.2.2 noDarwin "Direct" 0 exLeg
      exLegRecScheduled none rfl⟩

/-! ## Claim C4 — classification by rail-leg count -/

/-- C4: a route with exactly one rail-mode leg classifies as Direct; a
route classifies as One Change exactly when it is a rail leg, a walking
leg and a rail leg in that order; every other composition is marked
invalid, an invalid journey processes to nothing, and every record the
selection loop emits is Direct or One Change. -/
theorem classification_counts_rail_legs (legs : List TFLLeg) (env : DarwinEnv)
    (j : TFLJourney) (n : Nat) :
    (is_valid_train_journey legs = (true, "Direct") ↔
      (legs.filter isRailB).length = 1)
    ∧ (is_valid_train_journey legs = (true, "One Change") ↔
      ∃ a w b, legs = [a, w, b] ∧ isRailB a = true ∧ w.modeId = "walking"
        ∧ isRailB b = true)
    ∧ ((is_valid_train_journey j.legs).1 = false →
        process_journey env j n = Except.ok none)
    ∧ (∀ (num : Nat) (js : List TFLJourney) (r : JourneyRec),
        r ∈ fetchLoop env num js [] →
        r.jtype = "Direct" ∨ r.jtype = "One Change") := by
  refine ⟨?_, ?_, ?_, ?_⟩
  · constructor
    · intro h
      by_contra hne
      simp only [is_valid_train_journey] at h
      rw [if_neg hne] at h
      by_cases h2 : (legs.filter isRailB).length = 2
      · rw [if_pos h2] at h
        split at h
        · split at h
          · exact absurd (congrArg Prod.snd h) (by decide)
          · exact absurd (congrArg Prod.fst h) (by decide)
        · exact absurd (congrArg Prod.fst h) (by decide)
      · rw [if_neg h2] at h
        exact absurd (congrArg Prod.fst h) (by decide)
    · intro h
      simp only [is_valid_train_journey]
      rw [if_pos h]
  · constructor
    · intro h
      simp only [is_valid_train_journey] at h
      by_cases h1 : (legs.filter isRailB).length = 1
      · rw [if_pos h1] at h
        exact absurd (congrArg Prod.snd h) (by decide)
      · rw [if_neg h1] at h
        by_cases h2 : (legs.filter isRailB).length = 2
        · rw [if_pos h2] at h
          split at h
          · rename_i a m b
            split at h
            · rename_i hw
              have hmw : m.modeId = "walking" := eq_of_beq hw
              have hmrail : isRailB m = false := by
                simp only [isRailB, hmw]
                decide
              refine ⟨a, m, b, rfl, ?_, hmw, ?_⟩
              · cases ha : isRailB a
                · exfalso
                  cases hb : isRailB b <;>
                    simp [List.filter_cons, List.filter_nil, ha, hb, hmrail] at h2
                · rfl
              · cases hb : isRailB b
                · exfalso
                  cases ha : isRailB a <;>
                    simp [List.filter_cons, List.filter_nil, ha, hb, hmrail] at h2
                · rfl
            · exact absurd (congrArg Prod.fst h) (by decide)
          · exact absurd (congrArg Prod.fst h) (by decide)
        · rw [if_neg h2] at h
          exact absurd (congrArg Prod.fst h) (by decide)
    · rintro ⟨a, w, b, rfl, ha, hw, hb⟩
      have hwrail : isRailB w = false := by
        simp only [isRailB, hw]
        decide
      have hwb : (w.modeId == "walking") = true := by
        rw [hw]
        decide
      have hlen : (([a, w, b] : List TFLLeg).filter isRailB).length = 2 := by
        simp [List.filter_cons, List.filter_nil, ha, hb, hwrail]
      simp only [is_valid_train_journey]
      rw [if_neg (by rw [hlen]; decide), if_pos hlen]
      simp [hwb]
  · intro h
    simp only [process_journey]
    rw [if_neg (by rw [h]; decide)]
  · intro num js r h
    rcases mem_fetchLoop env num js [] r h with h1 | ⟨j2, n2, h2⟩
    · exact absurd h1 (List.not_mem_nil r)
    · obtain ⟨-, hty, hfst⟩ := process_journey_ok_inv env j2 n2 r h2
      rcases is_valid_cases j2.legs with hc | hc | hc
      · rw [hty, hc]; exact Or.inl rfl
      · rw [hty, hc]; exact Or.inr rfl
      · rw [hc] at hfst; exact absurd hfst (by decide)

/-- Witness for `classification_counts_rail_legs`: the single-rail-leg
journey is Direct, the rail-walk-rail journey is One Change, and the bus
journey processes to nothing. -/
theorem classification_counts_rail_legs_witness :
    is_valid_train_journey [exLeg] = (true, "Direct")
    ∧ is_valid_train_journey [exLegA, exWalk, exLegB] = (true, "One Change")
    ∧ process_journey noDarwin busJourney 1 = Except.ok none :=
  ⟨(classification_counts_rail_legs [exLeg] noDarwin busJourney 1).1.mpr (by decide),
   (classification_counts_rail_legs [exLegA, exWalk, exLegB] noDarwin busJourney 1).2.1.mpr
     ⟨exLegA, exWalk, exLegB, rfl, by decide, by decide, by decide⟩,
   (classification_counts_rail_legs [] noDarwin busJourney 1).2.2.1 (by decide)⟩

/-! ## Claim C5 — duration recomputation from the terminal live arrival -/

/-- C5: when the final rail leg's Darwin lookup succeeds, the journey's
arrival time becomes the live arrival and the total duration is recomputed
from the journey's scheduled departure and the live arrival — the
difference of the two clock times, plus 24 hours (1440 minutes) when the
arrival clock time is numerically earlier; when the live arrival does not
parse, the previously computed scheduled duration is kept. -/
theorem terminal_live_arrival_recomputes_duration
    (env : DarwinEnv) (leg : TFLLeg) (sdt adt : String) (dur jid : Nat)
    (stT etT depT arrT : Nat) (oc dc : String) (dd : DarwinResult)
    (hrail : isRailB leg = true)
    (hst : parseTFL sdt = some stT) (het : parseTFL adt = some etT)
    (hld : parseTFL leg.scheduledDepartureTime = some depT)
    (hla : parseTFL leg.scheduledArrivalTime = some arrT)
    (hoc : CRS_MAP leg.depName = some oc) (hdc : CRS_MAP leg.arrName = some dc)
    (hdd : get_darwin_live_data env oc (fmtHHMM depT) dc = some dd) :
    ∃ rec, process_journey env ⟨sdt, adt, dur, [leg]⟩ jid = Except.ok (some rec)
      ∧ rec.arrivalTime = dd.liveArrival
      ∧ rec.totalDuration =
          recomputeDuration (fmtHHMM stT) dd.liveArrival (toString dur ++ " min")
      ∧ (∀ d a, parseHHMM (fmtHHMM stT) = some d → parseHHMM dd.liveArrival = some a →
          recomputeDuration (fmtHHMM stT) dd.liveArrival (toString dur ++ " min") =
            toString ((if a < d then a + 1440 else a) - d) ++ " min")
      ∧ (parseHHMM dd.liveArrival = none →
          recomputeDuration (fmtHHMM stT) dd.liveArrival (toString dur ++ " min") =
            toString dur ++ " min") := by
  have hv : is_valid_train_journey [leg] = (true, "Direct") := by
    simp only [is_valid_train_journey]
    rw [if_pos (by simp [List.filter_cons, List.filter_nil, hrail])]
  have hrld : railLegData env "Direct" 0 leg =
      Except.ok
        ({ origin := replaceStr leg.depName " Rail Station" ""
           destination := replaceStr leg.arrName " Rail Station" ""
           departure := fmtHHMM depT
           arrival := fmtHHMM arrT
           op := cleanOperator ((leg.summary).getD "Rail Operator")
           status := (leg.status).getD "On Time"
           live_arrival := some dd.liveArrival
           departurePlatform := some dd.departurePlatform
           arrivalPlatform := some dd.arrivalPlatform
           arrivalPlatform_ClaphamJunction := none
           departurePlatform_ClaphamJunction := none }, some dd) := by
    simp only [railLegData, hld, hla, hoc, hdc, hdd]
    rfl
  have hstep : legStep env "Direct" (fmtHHMM stT) (some leg)
      ⟨[], fmtHHMM etT, toString dur ++ " min"⟩ (0, leg) =
      Except.ok
        ⟨[LegRec.train
            { origin := replaceStr leg.depName " Rail Station" ""
              destination := replaceStr leg.arrName " Rail Station" ""
              departure := fmtHHMM depT
              arrival := fmtHHMM arrT
              op := cleanOperator ((leg.summary).getD "Rail Operator")
              status := (leg.status).getD "On Time"
              live_arrival := some dd.liveArrival
              departurePlatform := some dd.departurePlatform
              arrivalPlatform := some dd.arrivalPlatform
              arrivalPlatform_ClaphamJunction := none
              departurePlatform_ClaphamJunction := none }],
          dd.liveArrival,
          recomputeDuration (fmtHHMM stT) dd.liveArrival (toString dur ++ " min")⟩ := by
    simp only [legStep, hrail, hrld, if_pos rfl]
    rfl
  have hpl : processLegs env "Direct" (fmtHHMM stT) (some leg) [(0, leg)]
      ⟨[], fmtHHMM etT, toString dur ++ " min"⟩ =
      Except.ok
        ⟨[LegRec.train
            { origin := replaceStr leg.depName " Rail Station" ""
              destination := replaceStr leg.arrName " Rail Station" ""
              departure := fmtHHMM depT
              arrival := fmtHHMM arrT
              op := cleanOperator ((leg.summary).getD "Rail Operator")
              status := (leg.status).getD "On Time"
              live_arrival := some dd.liveArrival
              departurePlatform := some dd.departurePlatform
              arrivalPlatform := some dd.arrivalPlatform
              arrivalPlatform_ClaphamJunction := none
              departurePlatform_ClaphamJunction := none }],
          dd.liveArrival,
          recomputeDuration (fmtHHMM stT) dd.liveArrival (toString dur ++ " min")⟩ := by
    simp only [processLegs, hstep]
  have hpj : process_journey env ⟨sdt, adt, dur, [leg]⟩ jid =
      Except.ok (some
        { id := jid
          jtype := "Direct"
          departureTime := fmtHHMM stT
          arrivalTime := dd.liveArrival
          totalDuration :=
            recomputeDuration (fmtHHMM stT) dd.liveArrival (toString dur ++ " min")
          status := (leg.status).getD "On Time"
          legs := [LegRec.train
            { origin := replaceStr leg.depName " Rail Station" ""
              destination := replaceStr leg.arrName " Rail Station" ""
              departure := fmtHHMM depT
              arrival := fmtHHMM arrT
              op := cleanOperator ((leg.summary).getD "Rail Operator")
              status := (leg.status).getD "On Time"
              live_arrival := some dd.liveArrival
              departurePlatform := some dd.departurePlatform
              arrivalPlatform := some dd.arrivalPlatform
              arrivalPlatform_ClaphamJunction := none
              departurePlatform_ClaphamJunction := none }] }) := by
    have hfil : List.filter isRailB [leg] = [leg] := by
      simp [List.filter_cons, List.filter_nil, hrail]
    have henum : ([leg] : List TFLLeg).enum = [(0, leg)] := rfl
    have hgl : ([leg] : List TFLLeg).getLast? = some leg := rfl
    have hhead : ([leg] : List TFLLeg).head? = some leg := rfl
    simp [process_journey, hv, hst, het, hfil, henum, hgl, hhead, hpl]
  refine ⟨_, hpj, rfl, rfl, ?_, ?_⟩
  · intro d a h1 h2
    unfold recomputeDuration
    rw [h1, h2]
  · intro h2
    unfold recomputeDuration
    rw [h2]
    cases hx : parseHHMM (fmtHHMM stT) <;> rfl

/-- Witness for `terminal_live_arrival_recomputes_duration` at the delayed
07:25 service: the live arrival 07:46 yields a 21-minute duration. -/
theorem terminal_live_arrival_recomputes_duration_witness :
    ∃ rec, process_journey envDelayed exJourney 1 = Except.ok (some rec)
      ∧ rec.arrivalTime = "07:46"
      ∧ rec.totalDuration = recomputeDuration "07:25" "07:46" "15 min"
      ∧ (∀ d a, parseHHMM "07:25" = some d → parseHHMM "07:46" = some a →
          recomputeDuration "07:25" "07:46" "15 min" =
            toString ((if a < d then a + 1440 else a) - d) ++ " min")
      ∧ (parseHHMM "07:46" = none →
          recomputeDuration "07:25" "07:46" "15 min" = "15 min") :=
  terminal_live_arrival_recomputes_duration envDelayed exLeg
    "2026-10-12T07:25:00" "2026-10-12T07:40:00" 15 1 445 460 445 460
    "SRC" "IMW" ⟨"07:46", "4", "2"⟩ rfl rfl rfl rfl rfl rfl rfl rfl

/-! ## Claim C6 — defaults when no live record is matched -/

/-- C6: when no Darwin data was used for a rail leg (no session, transport
failure, no matching service, or missing CRS codes), the produced leg
record still carries all live fields: the live arrival equals the leg's
scheduled arrival time, both platforms are the `'TBC'` sentinel, and the
status keeps the schedule source's default. -/
theorem no_live_match_defaults_to_scheduled
    (env : DarwinEnv) (jt : String) (idx : Nat) (leg : TFLLeg) (rec : TrainLegRec)
    (h : railLegData env jt idx leg = Except.ok (rec, none)) :
    rec.live_arrival = some rec.arrival
    ∧ rec.departurePlatform = some "TBC"
    ∧ rec.arrivalPlatform = some "TBC"
    ∧ rec.status = (leg.status).getD "On Time" := by
  simp only [railLegData] at h
  repeat split at h
  all_goals
    first
      | (injection h with h2
         simp only [Prod.mk.injEq] at h2
         obtain ⟨h3, h4⟩ := h2
         first
           | exact Option.noConfusion h4
           | (subst h3; exact ⟨rfl, rfl, rfl, rfl⟩))
      | injection h

/-- Witness for `no_live_match_defaults_to_scheduled` on the no-session
environment. -/
theorem no_live_match_defaults_to_scheduled_witness :
    exLegRecScheduled.live_arrival = some exLegRecScheduled.arrival
    ∧ exLegRecScheduled.departurePlatform = some "TBC"
    ∧ exLegRecScheduled.arrivalPlatform = some "TBC"
    ∧ exLegRecScheduled.status = (exLeg.status).getD "On Time" :=
  no_live_match_defaults_to_scheduled noDarwin "Direct" 0 exLeg
    exLegRecScheduled rfl

/-! ## Claim C9 — dense 1-based journey ids -/

/-- The selection loop preserves dense 1-based ids: if the accumulator's
ids are `1, ..., len`, so are the final list's. -/
theorem fetchLoop_ids (env : DarwinEnv) (num : Nat) :
    ∀ (js : List TFLJourney) (acc : List JourneyRec),
      acc.map (fun r => r.id) = List.range' 1 acc.length →
      (fetchLoop env num js acc).map (fun r => r.id) =
        List.range' 1 (fetchLoop env num js acc).length := by
  intro js
  induction js with
  | nil => intro acc hacc; exact hacc
  | cons j rest ih =>
    intro acc hacc
    simp only [fetchLoop]
    split
    · rename_i r hp
      have hid : r.id = acc.length + 1 :=
        (process_journey_ok_inv env j (acc.length + 1) r hp).1
      have hacc2 : (acc ++ [r]).map (fun r => r.id) =
          List.range' 1 (acc ++ [r]).length := by
        have hlen : (acc ++ [r]).length = acc.length + 1 := by simp
        rw [List.map_append, hacc, hlen, List.range'_concat]
        simp [hid, Nat.add_comm]
      by_cases hn : num ≤ (acc ++ [r]).length
      · rw [if_pos hn]
        exact hacc2
      · rw [if_neg hn]
        exact ih (acc ++ [r]) hacc2
    · rename_i hp
      exact ih acc hacc
    · rename_i e hp
      exact ih acc hacc

/-- C9: within one run's output the journey ids are exactly `1, 2, ...` in
list order — dense, 1-based, assigned at selection time, with no gap left
by skipped invalid or failing candidates. -/
theorem journey_ids_dense_and_one_based (env : DarwinEnv)
    (resp : Option (List TFLJourney)) (num : Nat) :
    (fetch_and_process_tfl_data env resp num).map (fun r => r.id) =
      List.range' 1 (fetch_and_process_tfl_data env resp num).length := by
  cases resp with
  | none => rfl
  | some js => exact fetchLoop_ids env num js [] rfl

end IMW
